import Mathlib

/-!
Verification of the react-native-nitro-ark binding layer together with the
wallet engine its FFI surface implies.

The repository ships the C++ marshalling code (NitroArk.hpp, NitroArkJni.cpp)
and the generated declarations of the Rust core (ark_cxx.h, bark-cpp.h).
Marshalling code is embedded directly from the source.  The Rust core
implementation is not part of the supplied sources; definitions standing in
for it are each marked `Modelled from the spec:` and follow the wording of
spec.md.
-/

/-- Error taxonomy of the core, from spec.md section 7. -/
inductive BarkErrorKind where
  | ConfigurationError
  | KeyDerivationError
  | InsufficientFunds
  | InvalidArgument
  | NetworkError
  | ProtocolError
  | StateError
  | NotFound
  deriving DecidableEq

/-- VTXO lifecycle states, from the data model of spec.md section 3:
state (spendable/pending-in-round/pending-exit/htlc-locked/spent). -/
inductive VtxoState where
  | spendable
  | pendingInRound
  | pendingExit
  | htlcLocked
  | spent
  deriving DecidableEq

/-- Modelled from the spec: the serialized names of the VTXO states as they
cross the FFI boundary in the `state` string of `bark_cxx::BarkVtxo`; the
concrete strings follow the state names listed in spec.md section 3. -/
def VtxoState.render : VtxoState → String
  | .spendable => "spendable"
  | .pendingInRound => "pending-in-round"
  | .pendingExit => "pending-exit"
  | .htlcLocked => "htlc-locked"
  | .spent => "spent"

/-- The five offchain balance categories, matching the five fields of
`bark_cxx::OffchainBalance` as marshalled in NitroArk.hpp lines 246-262. -/
inductive BalanceCategory where
  | spendable
  | pendingLightningSend
  | pendingInRound
  | pendingExit
  | pendingBoard
  deriving DecidableEq

/-- A core-side VTXO.  Field list from `bark_cxx::BarkVtxo` as read by
`convertRustVtxosToVector` (NitroArk.hpp lines 16-33), with the `state`
kept as the structured core state and `board_confirmed` recording whether
the funding transaction of a boarded VTXO has reached
`required_board_confirmations` (spec.md section 4.4). -/
structure CoreVtxo where
  amount : Nat
  expiry_height : Nat
  server_pubkey : String
  exit_delta : Nat
  anchor_point : String
  point : String
  state : VtxoState
  board_confirmed : Bool
  deriving DecidableEq

/-- Modelled from the spec: which balance category a VTXO contributes to.
Spendable coins whose board funding transaction is not yet confirmed count
as pending-board (spec.md section 4.4); htlc-locked coins are in the
process of being sent over Lightning (doc comments of
`bark_cxx::OffchainBalance`); spent VTXOs carry no balance. -/
def vtxoCategory (v : CoreVtxo) : Option BalanceCategory :=
  match v.state with
  | .spendable => if v.board_confirmed then some .spendable else some .pendingBoard
  | .htlcLocked => some .pendingLightningSend
  | .pendingInRound => some .pendingInRound
  | .pendingExit => some .pendingExit
  | .spent => none

/-- One destination of a Movement, from the fields read off
`bark_cxx::BarkMovement::sent_to` in NitroArk.hpp lines 406-412. -/
structure MovementDestination where
  destination : String
  payment_method : String
  amount_sat : Nat
  deriving DecidableEq

/-- A core-side Movement ledger entry: the fields of
`bark_cxx::BarkMovement` as read by `history` (NitroArk.hpp lines 386-437).
An empty `completed_at` string is the core encoding of a missing
completion timestamp. -/
structure Movement where
  id : Nat
  status : String
  metadata_json : String
  intended_balance_sat : Nat
  effective_balance_sat : Nat
  offchain_fee_sat : Nat
  created_at : String
  updated_at : String
  completed_at : String
  subsystem_name : String
  subsystem_kind : String
  sent_to : List MovementDestination
  received_on : List MovementDestination
  input_vtxos : List String
  output_vtxos : List String
  exited_vtxos : List String
  deriving DecidableEq

/-- Modelled from the spec: one in-flight unilateral exit tracked by the
exit engine of spec.md section 4.6: a VTXO id and how many broadcast
stages have completed so far. -/
structure ExitEntry where
  vtxo_id : String
  stage : Nat
  deriving DecidableEq

/-- A core-side pending or completed inbound Lightning payment: the fields
of `bark_cxx::LightningReceive` as read by `lightningReceiveStatus`
(NitroArk.hpp lines 778-812).  The two nullable timestamps are pointers on
the FFI surface, embedded as `Option Nat`. -/
structure LightningReceiveRust where
  payment_hash : String
  payment_preimage : String
  invoice : String
  preimage_revealed_at : Option Nat
  finished_at : Option Nat
  deriving DecidableEq

/-- Refresh selection modes, from `bark_cxx::RefreshModeType`
(ark_cxx.h lines 955-965). -/
inductive RefreshModeType where
  | DefaultThreshold
  | ThresholdBlocks
  | ThresholdHours
  | Counterparty
  | All
  | Specific
  deriving DecidableEq

/-- Refresh options, from `bark_BarkRefreshOpts` (bark-cpp.h lines 62-68):
a mode discriminator, a threshold payload and an id-list payload. -/
structure BarkRefreshOpts where
  mode_type : RefreshModeType
  threshold_value : Nat
  specific_vtxo_ids : List String
  deriving DecidableEq

/-- Modelled from the spec: the persisted state of one loaded wallet
(spec.md section 3): seed material, network, the key derivation cursor,
the VTXO set, the append-only Movement ledger, the in-flight exits and
the Lightning receive table.  The chain height drives expiry selection. -/
structure WalletCoreState where
  mnemonic : String
  network : String
  next_keypair_index : Nat
  chain_height : Nat
  vtxos : List CoreVtxo
  movements : List Movement
  exits : List ExitEntry
  lightning_receives : List LightningReceiveRust
  deriving DecidableEq

/-! ### Binding-side record types

The nitrogen-generated binding structs mirror the core structs field by
field; numeric fields are `double` on the JS-facing side.  The casts
`static_cast<double>` applied by NitroArk.hpp are value-preserving on the
integer ranges that occur here, so the embedding keeps them as `Nat`. -/

/-- The core-side `bark_cxx::BarkVtxo` as consumed by NitroArk.hpp: the
fields of ark_cxx.h lines 818-830 plus the `state` string read at
NitroArk.hpp line 28 (the supplied ark_cxx.h snapshot predates that
field; NitroArk.hpp is the newest interface shape and is followed, per
the deprecation note of spec.md section 9). -/
structure BarkVtxoRust where
  amount : Nat
  expiry_height : Nat
  server_pubkey : String
  exit_delta : Nat
  anchor_point : String
  point : String
  state : String
  deriving DecidableEq

/-- The binding-side `BarkVtxo` struct populated by
`convertRustVtxosToVector`. -/
structure BarkVtxo where
  amount : Nat
  expiry_height : Nat
  server_pubkey : String
  exit_delta : Nat
  anchor_point : String
  point : String
  state : String
  deriving DecidableEq

/-- `convertRustVtxosToVector` (NitroArk.hpp lines 16-33): element-wise
copy of the seven fields of each rust VTXO into a binding `BarkVtxo`. -/
def convertRustVtxosToVector (rust_vtxos : List BarkVtxoRust) : List BarkVtxo :=
  rust_vtxos.map (fun vtxo_rs =>
    { amount := vtxo_rs.amount
      expiry_height := vtxo_rs.expiry_height
      server_pubkey := vtxo_rs.server_pubkey
      exit_delta := vtxo_rs.exit_delta
      anchor_point := vtxo_rs.anchor_point
      point := vtxo_rs.point
      state := vtxo_rs.state })

/-- The binding-side `BarkMovement` struct populated by `history`
(NitroArk.hpp lines 386-437): same fields as the core Movement, with
`completed_at` as an optional value and the subsystem pair nested. -/
structure BarkMovement where
  id : Nat
  status : String
  metadata_json : String
  intended_balance_sat : Nat
  effective_balance_sat : Nat
  offchain_fee_sat : Nat
  created_at : String
  updated_at : String
  completed_at : Option String
  subsystem_name : String
  subsystem_kind : String
  sent_to : List MovementDestination
  received_on : List MovementDestination
  input_vtxos : List String
  output_vtxos : List String
  exited_vtxos : List String
  deriving DecidableEq

/-- The per-entry conversion performed inside the loop of `history`
(NitroArk.hpp lines 386-437): every field is copied; `completed_at`
becomes `nullopt` exactly when the core string has length zero
(lines 396-400). -/
def convertMovement (movement_rs : Movement) : BarkMovement :=
  { id := movement_rs.id
    status := movement_rs.status
    metadata_json := movement_rs.metadata_json
    intended_balance_sat := movement_rs.intended_balance_sat
    effective_balance_sat := movement_rs.effective_balance_sat
    offchain_fee_sat := movement_rs.offchain_fee_sat
    created_at := movement_rs.created_at
    updated_at := movement_rs.updated_at
    completed_at :=
      if movement_rs.completed_at.length = 0 then none
      else some movement_rs.completed_at
    subsystem_name := movement_rs.subsystem_name
    subsystem_kind := movement_rs.subsystem_kind
    sent_to := movement_rs.sent_to
    received_on := movement_rs.received_on
    input_vtxos := movement_rs.input_vtxos
    output_vtxos := movement_rs.output_vtxos
    exited_vtxos := movement_rs.exited_vtxos }

/-- The binding-side `LightningReceive` struct populated by
`lightningReceiveStatus` and `tryClaimLightningReceive`. -/
structure LightningReceive where
  payment_hash : String
  payment_preimage : String
  invoice : String
  preimage_revealed_at : Option Nat
  finished_at : Option Nat
  deriving DecidableEq

/-- The field-wise conversion applied to a non-null
`bark_cxx::LightningReceive` by `lightningReceiveStatus`
(NitroArk.hpp lines 790-807): strings are copied and the two nullable
timestamp pointers become optional values. -/
def convertLightningReceive (status : LightningReceiveRust) : LightningReceive :=
  { payment_hash := status.payment_hash
    payment_preimage := status.payment_preimage
    invoice := status.invoice
    preimage_revealed_at := status.preimage_revealed_at
    finished_at := status.finished_at }

/-- The core-side `bark_cxx::LightningSend` as consumed by
`payLightningInvoice` (NitroArk.hpp lines 637-655): the preimage is a
plain string, empty while the payment is unsettled. -/
structure LightningSendRust where
  invoice : String
  payment_hash : String
  amount : Nat
  htlc_vtxos : List BarkVtxoRust
  movement_id : Nat
  preimage : String
  deriving DecidableEq

/-- The binding-side `LightningSendResult` struct. -/
structure LightningSendResult where
  invoice : String
  payment_hash : String
  amount : Nat
  htlc_vtxos : List BarkVtxo
  movement_id : Nat
  preimage : Option String
  deriving DecidableEq

/-- The result marshalling of `payLightningInvoice`
(NitroArk.hpp lines 645-655): fields are copied, the htlc VTXOs run
through `convertRustVtxosToVector`, and `preimage` becomes absent exactly
when the core preimage string is empty (lines 651-654). -/
def payLightningInvoiceResult (rust_result : LightningSendRust) : LightningSendResult :=
  { invoice := rust_result.invoice
    payment_hash := rust_result.payment_hash
    amount := rust_result.amount
    htlc_vtxos := convertRustVtxosToVector rust_result.htlc_vtxos
    movement_id := rust_result.movement_id
    preimage :=
      if rust_result.preimage = "" then none
      else some rust_result.preimage }

/-- `getFirstExpiringVtxoBlockheight` (NitroArk.hpp lines 470-484): the
core returns a possibly-null `uint32_t` pointer, embedded as
`Option Nat`; a null pointer becomes an absent value and a non-null
pointer is dereferenced into a present value. -/
def getFirstExpiringVtxoBlockheight (result_ptr : Option Nat) : Option Nat :=
  match result_ptr with
  | none => none
  | some value => some value

/-- `checkLightningPayment` (NitroArk.hpp lines 814-828): the core returns
a preimage string; the binding returns the JS null variant exactly when
that string is empty, embedded as `Option String`. -/
def checkLightningPayment (result : String) : Option String :=
  if result = "" then none
  else some result

/-- The core-side `bark_cxx::OffchainBalance`: the four documented fields
of ark_cxx.h lines 967-981 plus `pending_board`, which the newest binding
reads at NitroArk.hpp line 255. -/
structure OffchainBalance where
  spendable : Nat
  pending_lightning_send : Nat
  pending_in_round : Nat
  pending_exit : Nat
  pending_board : Nat
  deriving DecidableEq

/-- The binding-side `OffchainBalanceResult` struct. -/
structure OffchainBalanceResult where
  spendable : Nat
  pending_lightning_send : Nat
  pending_in_round : Nat
  pending_exit : Nat
  pending_board : Nat
  deriving DecidableEq

/-- The field-wise copy performed by the `offchainBalance` binding
(NitroArk.hpp lines 246-262). -/
def offchainBalanceResultOf (rust_balance : OffchainBalance) : OffchainBalanceResult :=
  { spendable := rust_balance.spendable
    pending_lightning_send := rust_balance.pending_lightning_send
    pending_in_round := rust_balance.pending_in_round
    pending_exit := rust_balance.pending_exit
    pending_board := rust_balance.pending_board }

/-- The `KeyPairResult` struct (ark_cxx.h lines 999-1007), identical on
both sides of the binding (NitroArk.hpp lines 279-292 copy the two
strings unchanged). -/
structure KeyPairResult where
  public_key : String
  secret_key : String
  deriving DecidableEq

/-! ### Spec-modelled core operations

The implementations below stand in for the Rust wallet core, whose code is
not part of the supplied sources; each follows the contract stated in
spec.md for the operation it models. -/

/-- Modelled from the spec: `lightning_receive_status` looks the payment
hash up in the wallet Lightning receive table and returns a null pointer
when the hash is unknown (spec.md section 4.5:
`lightningReceiveStatus(payment_hash) -> Option<LightningReceive>`
returns `None` if the hash is unknown). -/
def lightning_receive_status (store : List LightningReceiveRust)
    (payment_hash : String) : Option LightningReceiveRust :=
  store.find? (fun r => r.payment_hash == payment_hash)

/-- The `lightningReceiveStatus` binding (NitroArk.hpp lines 778-812): a
null core pointer becomes an absent optional, a non-null record is
converted field-wise. -/
def lightningReceiveStatus (store : List LightningReceiveRust)
    (paymentHash : String) : Option LightningReceive :=
  match lightning_receive_status store paymentHash with
  | none => none
  | some status => some (convertLightningReceive status)

/-- Sum of the amounts of a list of VTXOs. -/
def sumAmounts (vs : List CoreVtxo) : Nat :=
  vs.foldr (fun v acc => v.amount + acc) 0

/-- The total VTXO value held in one balance category. -/
def categoryValue (c : BalanceCategory) (vs : List CoreVtxo) : Nat :=
  sumAmounts (vs.filter (fun v => vtxoCategory v == some c))

/-- The total value of all VTXOs that carry balance (every state except
spent). -/
def offchainValue (vs : List CoreVtxo) : Nat :=
  sumAmounts (vs.filter (fun v => (vtxoCategory v).isSome))

/-- Modelled from the spec: `offchain_balance` is a derived aggregate,
recomputed from the current VTXO set and not stored independently
(spec.md section 3, OnchainBalance / OffchainBalance); each field is the
summed value of the VTXOs in the matching category. -/
def offchain_balance (vs : List CoreVtxo) : OffchainBalance :=
  { spendable := categoryValue .spendable vs
    pending_lightning_send := categoryValue .pendingLightningSend vs
    pending_in_round := categoryValue .pendingInRound vs
    pending_exit := categoryValue .pendingExit vs
    pending_board := categoryValue .pendingBoard vs }

/-- The `offchainBalance` binding (NitroArk.hpp lines 246-262) applied to
the derived core aggregate. -/
def offchainBalance (s : WalletCoreState) : OffchainBalanceResult :=
  offchainBalanceResultOf (offchain_balance s.vtxos)

/-- The four-way partition stated by the specification for
`offchainBalance`: spendable, pending-in-round, pending-exit and
pending-board together accounting for the whole offchain VTXO value. -/
def claimedFourWayPartition (s : WalletCoreState) : Prop :=
  (offchainBalance s).spendable + (offchainBalance s).pending_in_round +
      (offchainBalance s).pending_exit + (offchainBalance s).pending_board =
    offchainValue s.vtxos

/-- Modelled from the spec: the configured default refresh threshold
(`vtxo_refresh_expiry_threshold`, spec.md section 6); the concrete number
is a stand-in for the per-wallet configuration value. -/
def defaultVtxoRefreshExpiryThreshold : Nat := 288

/-- The spendable VTXOs whose expiry height falls within `threshold`
blocks of the current chain height (spec.md section 4.2, refresh
policy). -/
def expiringWithin (s : WalletCoreState) (threshold : Nat) : List CoreVtxo :=
  s.vtxos.filter (fun v =>
    v.state == VtxoState.spendable && v.expiry_height ≤ s.chain_height + threshold)

/-- Modelled from the spec: `refresh_vtxos` selects the VTXOs to replace
according to exactly one active mode (spec.md section 4.4): default
threshold, block-count threshold, hour threshold (six blocks per hour),
counterparty-initiated, all, or an explicit id list; `Specific` mode
requires a non-empty id list or fails with `InvalidArgument`.  The round
interaction that follows selection is outside this model; the
counterparty-initiated criterion depends on arkoor lineage the model does
not track and conservatively selects the spendable set. -/
def refresh_vtxos (s : WalletCoreState) (refresh_opts : BarkRefreshOpts) :
    Except BarkErrorKind (List CoreVtxo) :=
  match refresh_opts.mode_type with
  | .Specific =>
      if refresh_opts.specific_vtxo_ids.isEmpty then
        .error .InvalidArgument
      else
        .ok (s.vtxos.filter (fun v => refresh_opts.specific_vtxo_ids.contains v.point))
  | .All => .ok (s.vtxos.filter (fun v => v.state == VtxoState.spendable))
  | .DefaultThreshold => .ok (expiringWithin s defaultVtxoRefreshExpiryThreshold)
  | .ThresholdBlocks => .ok (expiringWithin s refresh_opts.threshold_value)
  | .ThresholdHours => .ok (expiringWithin s (refresh_opts.threshold_value * 6))
  | .Counterparty => .ok (s.vtxos.filter (fun v => v.state == VtxoState.spendable))

/-- The status snapshot returned by `exit_progress_once`; the
`is_final` / `is_success` flags mirror the RoundStatusResult marshalled
in NitroArkJni.cpp lines 114-154, derived from the in-flight exit list. -/
structure ExitProgressStatus where
  in_flight : Nat
  is_final : Bool
  is_success : Bool
  deriving DecidableEq

/-- Modelled from the spec: the status reported by the exit engine is a
view of its current in-flight set (spec.md section 4.6). -/
def exitStatusOf (s : WalletCoreState) : ExitProgressStatus :=
  { in_flight := s.exits.length
    is_final := s.exits.isEmpty
    is_success := s.exits.isEmpty }

/-- Modelled from the spec: the number of broadcast stages an exit must
complete before its funds are pure onchain UTXOs (spec.md section 4.6);
the concrete count stands in for the per-VTXO transaction chain depth. -/
def exitStagesRequired : Nat := 2

/-- Advancing one in-flight exit by one broadcast stage. -/
def stepExitEntry (e : ExitEntry) : ExitEntry :=
  { e with stage := e.stage + 1 }

/-- Modelled from the spec: `exit_progress_once` advances every in-flight
exit by one step and returns the current status; it performs no waiting
and is a no-op when nothing is in flight (spec.md section 4.6). -/
def exit_progress_once (s : WalletCoreState) : ExitProgressStatus × WalletCoreState :=
  match s.exits with
  | [] => (exitStatusOf s, s)
  | _ :: _ =>
      let advanced := s.exits.map stepExitEntry
      let remaining := advanced.filter (fun e => e.stage < exitStagesRequired)
      let s2 := { s with exits := remaining }
      (exitStatusOf s2, s2)

/-- Modelled from the spec: the process-wide handle of a loaded wallet
(spec.md section 5, single-wallet-per-process).  The process state is the
list of currently loaded wallets so that the singleton property is a
provable invariant rather than a representation artifact. -/
structure LoadedWallet where
  datadir : String
  wallet : WalletCoreState
  deriving DecidableEq

/-- Modelled from the spec: `load_wallet` installs the wallet as the
process-wide handle; loading while a wallet is already loaded is a
double-load and fails with `StateError` (spec.md sections 5 and 7). -/
def load_wallet (datadir : String) (w : WalletCoreState)
    (loaded : List LoadedWallet) : Except BarkErrorKind (List LoadedWallet) :=
  match loaded with
  | [] => .ok [{ datadir := datadir, wallet := w }]
  | _ :: _ => .error .StateError

/-- Modelled from the spec: `create_wallet` creates the wallet files and
then installs the handle under the same single-wallet guard as
`load_wallet` (spec.md section 3, wallet lifecycle). -/
def create_wallet (datadir : String) (w : WalletCoreState)
    (loaded : List LoadedWallet) : Except BarkErrorKind (List LoadedWallet) :=
  match loaded with
  | [] => .ok [{ datadir := datadir, wallet := w }]
  | _ :: _ => .error .StateError

/-- Modelled from the spec: `close_wallet` releases the process-wide
handle (spec.md section 5); closing with no wallet loaded is a state
error. -/
def close_wallet (loaded : List LoadedWallet) :
    Except BarkErrorKind (List LoadedWallet) :=
  match loaded with
  | [] => .error .StateError
  | _ :: _ => .ok []

/-- `is_wallet_loaded` (ark_cxx.h line 1013, called by the binding at
NitroArk.hpp lines 149-151): whether the guarded global handle currently
holds a wallet. -/
def is_wallet_loaded (loaded : List LoadedWallet) : Bool :=
  !loaded.isEmpty

/-- The wallet-lifecycle calls a process can issue. -/
inductive ProcessEvent where
  | load (datadir : String) (w : WalletCoreState)
  | create (datadir : String) (w : WalletCoreState)
  | close

/-- The result of one lifecycle call on the process state. -/
def processStep (loaded : List LoadedWallet) (e : ProcessEvent) :
    Except BarkErrorKind (List LoadedWallet) :=
  match e with
  | .load d w => load_wallet d w loaded
  | .create d w => create_wallet d w loaded
  | .close => close_wallet loaded

/-- A failing lifecycle call surfaces its error and leaves the process
state unchanged (spec.md section 7: no silent partial success). -/
def processApply (loaded : List LoadedWallet) (e : ProcessEvent) :
    List LoadedWallet :=
  match processStep loaded e with
  | .ok next => next
  | .error _ => loaded

/-- The process states reachable from a fresh process (no wallet loaded)
by lifecycle calls. -/
inductive ProcessReachable : List LoadedWallet → Prop where
  | init : ProcessReachable []
  | step {loaded : List LoadedWallet} (e : ProcessEvent) :
      ProcessReachable loaded → ProcessReachable (processApply loaded e)

/-- Modelled from the spec: BIP32-style deterministic key derivation from
the seed material and index (spec.md section 4.1: derivation must be
deterministic and idempotent, same seed+index always yields the same
keypair).  The hidden secp256k1 arithmetic is replaced by a deterministic
mixing function; the model keeps the contract that the secret is a pure
function of (mnemonic, network, index) and of nothing else. -/
def deriveSecret (mnemonic network : String) (index : Nat) : Nat :=
  let seed := (mnemonic ++ "/" ++ network).foldl
    (fun acc c => (acc * 31 + c.toNat) % 2 ^ 64) 7
  Nat.iterate
    (fun x => (x * 6364136223846793005 + 1442695040888963407) % 2 ^ 64)
    (index + 1) seed

/-- Modelled from the spec: `derive_keypair_from_mnemonic`
(ark_cxx.h line 1033) derives the keypair at an index from the given
mnemonic and network without touching wallet state. -/
def derive_keypair_from_mnemonic (mnemonic network : String) (index : Nat) :
    KeyPairResult :=
  let sk := deriveSecret mnemonic network index
  { public_key := toString (sk % 2 ^ 33)
    secret_key := toString sk }

/-- The `deriveKeypairFromMnemonic` binding (NitroArk.hpp lines 351-365):
the JS double index is cast to `uint32_t` before the core call is made,
and the two key strings are copied unchanged. -/
def deriveKeypairFromMnemonic (mnemonic network : String) (index : Nat) :
    KeyPairResult :=
  derive_keypair_from_mnemonic mnemonic network (index % 2 ^ 32)

/-- Modelled from the spec: `peak_keypair` (ark_cxx.h line 1025) is a
diagnostic peek that recomputes the keypair at the given index from the
loaded wallet seed; keypairs are recomputed on demand and the call does
not advance the derivation cursor (spec.md section 3, KeyPair). -/
def peak_keypair (s : WalletCoreState) (index : Nat) :
    KeyPairResult × WalletCoreState :=
  (derive_keypair_from_mnemonic s.mnemonic s.network index, s)

/-- The `peakKeyPair` binding (NitroArk.hpp lines 279-292): the JS double
index is cast to `uint32_t` before the core call. -/
def peakKeyPair (s : WalletCoreState) (index : Nat) :
    KeyPairResult × WalletCoreState :=
  peak_keypair s (index % 2 ^ 32)

/-- Marking the VTXOs with the given ids spent after they were consumed as
inputs of a payment or round (spec.md section 3: destroyed, marked spent,
when used as input to a payment, round, or exit). -/
def markSpent (ids : List String) (vs : List CoreVtxo) : List CoreVtxo :=
  vs.map (fun v => if ids.contains v.point then { v with state := VtxoState.spent } else v)

/-- Modelled from the spec: the operations of a loaded wallet session.
Balance-affecting operations (board, send, receive, refresh, exit ticks)
carry the Movement entry they record and the VTXO updates they make
(spec.md section 3, Movement); the remaining events are read-only queries
or chain progress. -/
inductive CoreEvent where
  | board (m : Movement) (minted : List CoreVtxo)
  | send (m : Movement) (spent_ids : List String)
  | receive (m : Movement) (received : List CoreVtxo)
  | refreshRound (m : Movement) (refreshed_ids : List String) (fresh : List CoreVtxo)
  | exitTick
  | blockFound
  | queryHistory
  | queryVtxos
  | queryBalance
  | peakKey (index : Nat)

/-- Modelled from the spec: the state update of each wallet session event.
Every balance-affecting event appends its Movement to the ledger; no event
rewrites an existing ledger entry (spec.md section 3: append-only, never
mutated after creation). -/
def applyEvent (s : WalletCoreState) (e : CoreEvent) : WalletCoreState :=
  match e with
  | .board m minted =>
      { s with movements := s.movements ++ [m], vtxos := s.vtxos ++ minted }
  | .send m spent_ids =>
      { s with movements := s.movements ++ [m], vtxos := markSpent spent_ids s.vtxos }
  | .receive m received =>
      { s with movements := s.movements ++ [m], vtxos := s.vtxos ++ received }
  | .refreshRound m refreshed_ids fresh =>
      { s with movements := s.movements ++ [m]
               vtxos := markSpent refreshed_ids s.vtxos ++ fresh }
  | .exitTick => (exit_progress_once s).2
  | .blockFound => { s with chain_height := s.chain_height + 1 }
  | .queryHistory => s
  | .queryVtxos => s
  | .queryBalance => s
  | .peakKey index => (peak_keypair s index).2

/-- Whether a session event records a balance-affecting operation
(spec.md section 3: board, send, receive, refresh, exit). -/
def isBalanceAffecting : CoreEvent → Bool
  | .board _ _ => true
  | .send _ _ => true
  | .receive _ _ => true
  | .refreshRound _ _ _ => true
  | .exitTick => true
  | .blockFound => false
  | .queryHistory => false
  | .queryVtxos => false
  | .queryBalance => false
  | .peakKey _ => false

/-- Folding a list of session events over the wallet state. -/
def applyEvents (s : WalletCoreState) (es : List CoreEvent) : WalletCoreState :=
  es.foldl applyEvent s

/-- The `history` binding (NitroArk.hpp lines 378-446): the core ledger is
returned entry by entry through `convertMovement`. -/
def history (s : WalletCoreState) : List BarkMovement :=
  s.movements.map convertMovement

/-- Modelled from the spec: the core serializes each VTXO of the ledger
into the FFI `bark_cxx::BarkVtxo` record, rendering the structured state
as its listed name (spec.md section 3). -/
def rustVtxoOfCore (v : CoreVtxo) : BarkVtxoRust :=
  { amount := v.amount
    expiry_height := v.expiry_height
    server_pubkey := v.server_pubkey
    exit_delta := v.exit_delta
    anchor_point := v.anchor_point
    point := v.point
    state := v.state.render }

/-- Modelled from the spec: `get_vtxos` returns the wallet VTXO set over
the FFI (spec.md section 4.2, `list`). -/
def get_vtxos (s : WalletCoreState) : List BarkVtxoRust :=
  s.vtxos.map rustVtxoOfCore

/-- Modelled from the spec: `get_expiring_vtxos` returns the VTXOs whose
expiry height falls within the given threshold of the current chain
height (spec.md section 4.2, `listExpiring`). -/
def get_expiring_vtxos (s : WalletCoreState) (threshold : Nat) : List BarkVtxoRust :=
  (s.vtxos.filter (fun v => v.expiry_height ≤ s.chain_height + threshold)).map
    rustVtxoOfCore

/-- The `vtxos` binding (NitroArk.hpp lines 448-457). -/
def vtxos (s : WalletCoreState) : List BarkVtxo :=
  convertRustVtxosToVector (get_vtxos s)

/-- The `getExpiringVtxos` binding (NitroArk.hpp lines 459-468). -/
def getExpiringVtxos (s : WalletCoreState) (threshold : Nat) : List BarkVtxo :=
  convertRustVtxosToVector (get_expiring_vtxos s threshold)

/-- Modelled from the spec: the VTXO state transitions of the lattice in
spec.md section 4.2.  Forward edges move a coin from spendable into a
round, an exit, an HTLC lock, or directly to spent, and from the pending
states to spent on completion.  The rollback edges are the
confirmed-rollback recovery of a failed round or Lightning send
(spec.md section 4.4: failure must roll back any VTXO state speculatively
marked pending-in-round back to spendable, or to pending-exit if recovery
requires unilateral action).  No edge leaves the spent state. -/
inductive VtxoStep : VtxoState → VtxoState → Prop where
  | enterRound : VtxoStep .spendable .pendingInRound
  | startExit : VtxoStep .spendable .pendingExit
  | lockHtlc : VtxoStep .spendable .htlcLocked
  | spendDirect : VtxoStep .spendable .spent
  | roundCompletes : VtxoStep .pendingInRound .spent
  | exitCompletes : VtxoStep .pendingExit .spent
  | htlcSettles : VtxoStep .htlcLocked .spent
  | rollbackRound : VtxoStep .pendingInRound .spendable
  | rollbackToExit : VtxoStep .pendingInRound .pendingExit
  | rollbackHtlc : VtxoStep .htlcLocked .spendable

/-- Multi-step reachability in the VTXO state lattice. -/
inductive VtxoReach : VtxoState → VtxoState → Prop where
  | refl (s : VtxoState) : VtxoReach s s
  | tail {s t u : VtxoState} : VtxoReach s t → VtxoStep t u → VtxoReach s u

/-- The height of a state in the lattice: spendable below the pending
states below spent. -/
def VtxoState.rank : VtxoState → Nat
  | .spendable => 0
  | .pendingInRound => 1
  | .pendingExit => 1
  | .htlcLocked => 1
  | .spent => 2

/-- The confirmed-rollback recovery edges, the only transitions the
specification exempts from forward movement. -/
def confirmedRollbackEdge (s t : VtxoState) : Prop :=
  (s = VtxoState.pendingInRound ∧ t = VtxoState.spendable) ∨
  (s = VtxoState.pendingInRound ∧ t = VtxoState.pendingExit) ∨
  (s = VtxoState.htlcLocked ∧ t = VtxoState.spendable)

/-! ### Concrete instances used to instantiate the theorems -/

/-- A concrete spendable VTXO. -/
def sampleSpendableVtxo : CoreVtxo :=
  { amount := 1000
    expiry_height := 400
    server_pubkey := "02aa"
    exit_delta := 12
    anchor_point := "f0:0"
    point := "f0:1"
    state := VtxoState.spendable
    board_confirmed := true }

/-- A concrete idle wallet: one spendable VTXO, empty ledger, no exits. -/
def sampleWallet : WalletCoreState :=
  { mnemonic := "abandon ability able"
    network := "regtest"
    next_keypair_index := 0
    chain_height := 100
    vtxos := [sampleSpendableVtxo]
    movements := []
    exits := []
    lightning_receives := [] }

/-- A concrete Lightning receive record. -/
def sampleReceive : LightningReceiveRust :=
  { payment_hash := "h1"
    payment_preimage := ""
    invoice := "lnbc1"
    preimage_revealed_at := none
    finished_at := none }

/-- A concrete loaded-wallet handle. -/
def sampleLoadedWallet : LoadedWallet :=
  { datadir := "/data", wallet := sampleWallet }

/-- A VTXO locked into an in-flight Lightning send. -/
def cexHtlcVtxo : CoreVtxo :=
  { amount := 5
    expiry_height := 1000
    server_pubkey := "02bb"
    exit_delta := 12
    anchor_point := "a1:0"
    point := "a1:1"
    state := VtxoState.htlcLocked
    board_confirmed := true }

/-- A wallet whose only VTXO is mid-Lightning-send. -/
def cexWallet : WalletCoreState :=
  { mnemonic := "legal winner thank"
    network := "bitcoin"
    next_keypair_index := 3
    chain_height := 10
    vtxos := [cexHtlcVtxo]
    movements := []
    exits := []
    lightning_receives := [] }

/-! ### Helper lemmas -/

/-- `exit_progress_once` never touches the seed material or the Movement
ledger: it only rewrites the in-flight exit list. -/
theorem exit_progress_once_state_fields (s : WalletCoreState) :
    ((exit_progress_once s).2).mnemonic = s.mnemonic ∧
    ((exit_progress_once s).2).network = s.network ∧
    ((exit_progress_once s).2).movements = s.movements := by
  cases h : s.exits with
  | nil => simp [exit_progress_once, h]
  | cons a l => simp [exit_progress_once, h]

/-- No session event rewrites the wallet seed material. -/
theorem applyEvent_preserves_seed (s : WalletCoreState) (e : CoreEvent) :
    (applyEvent s e).mnemonic = s.mnemonic ∧
    (applyEvent s e).network = s.network := by
  cases e <;>
    simp [applyEvent, peak_keypair, (exit_progress_once_state_fields s).1,
      (exit_progress_once_state_fields s).2.1]

/-- No sequence of session events rewrites the wallet seed material. -/
theorem applyEvents_preserves_seed (es : List CoreEvent) :
    ∀ s : WalletCoreState,
      (applyEvents s es).mnemonic = s.mnemonic ∧
      (applyEvents s es).network = s.network := by
  induction es with
  | nil => intro s; exact ⟨rfl, rfl⟩
  | cons e es ih =>
      intro s
      have h1 := applyEvent_preserves_seed s e
      have h2 := ih (applyEvent s e)
      exact ⟨h2.1.trans h1.1, h2.2.trans h1.2⟩

/-- Read-only session events leave the Movement ledger untouched. -/
theorem applyEvent_readonly_movements (s : WalletCoreState) (e : CoreEvent)
    (h : isBalanceAffecting e = false) :
    (applyEvent s e).movements = s.movements := by
  cases e <;> simp_all [applyEvent, isBalanceAffecting, peak_keypair,
    (exit_progress_once_state_fields s).2.2]

/-- Unfolding one VTXO out of a category sum. -/
theorem categoryValue_cons (c : BalanceCategory) (v : CoreVtxo) (vs : List CoreVtxo) :
    categoryValue c (v :: vs) =
      (if vtxoCategory v = some c then v.amount else 0) + categoryValue c vs := by
  by_cases h : vtxoCategory v = some c
  · simp [categoryValue, sumAmounts, List.filter_cons, h]
  · simp [categoryValue, sumAmounts, List.filter_cons, h]

/-- Unfolding one VTXO out of the total offchain value. -/
theorem offchainValue_cons (v : CoreVtxo) (vs : List CoreVtxo) :
    offchainValue (v :: vs) =
      (if (vtxoCategory v).isSome then v.amount else 0) + offchainValue vs := by
  by_cases h : (vtxoCategory v).isSome
  · simp [offchainValue, sumAmounts, List.filter_cons, h]
  · simp [offchainValue, sumAmounts, List.filter_cons, h]

/-- The five balance categories partition the offchain VTXO value. -/
theorem fiveWayPartitionAux (vs : List CoreVtxo) :
    categoryValue BalanceCategory.spendable vs +
      categoryValue BalanceCategory.pendingLightningSend vs +
      categoryValue BalanceCategory.pendingInRound vs +
      categoryValue BalanceCategory.pendingExit vs +
      categoryValue BalanceCategory.pendingBoard vs = offchainValue vs := by
  induction vs with
  | nil => rfl
  | cons v vs ih =>
      rw [categoryValue_cons, categoryValue_cons, categoryValue_cons,
        categoryValue_cons, categoryValue_cons, offchainValue_cons]
      rcases hv : vtxoCategory v with _ | c
      · simp only [hv, Option.isSome_none]
        simp
        omega
      · cases c <;> simp_all <;> omega

/-! ### Claim theorems -/

/-- C1: a `refreshVtxos` call in `Specific` mode with an empty VTXO id
list fails with `InvalidArgument`; it never succeeds as a no-op that
refreshes nothing. -/
theorem refreshVtxos_specific_empty_rejected
    (s : WalletCoreState) (refresh_opts : BarkRefreshOpts)
    (hmode : refresh_opts.mode_type = RefreshModeType.Specific)
    (hids : refresh_opts.specific_vtxo_ids = []) :
    refresh_vtxos s refresh_opts = Except.error BarkErrorKind.InvalidArgument ∧
    ∀ selection, refresh_vtxos s refresh_opts ≠ Except.ok selection := by
  have herr : refresh_vtxos s refresh_opts = Except.error BarkErrorKind.InvalidArgument := by
    cases refresh_opts with
    | mk mt tv ids =>
        simp only at hmode hids
        subst hmode
        subst hids
        rfl
  exact ⟨herr, fun selection hok => by rw [herr] at hok; cases hok⟩

/-- Witness for C1 at a concrete wallet and option record. -/
theorem refreshVtxos_specific_empty_rejected_witness :
    refresh_vtxos sampleWallet
        { mode_type := RefreshModeType.Specific
          threshold_value := 0
          specific_vtxo_ids := [] } =
      Except.error BarkErrorKind.InvalidArgument :=
  (refreshVtxos_specific_empty_rejected sampleWallet
    { mode_type := RefreshModeType.Specific
      threshold_value := 0
      specific_vtxo_ids := [] } rfl rfl).1

/-- C2: VTXO state transitions move forward along the lattice except for
the confirmed-rollback recovery edges, and the spent state is absorbing:
no sequence of transitions moves a spent VTXO back to spendable. -/
theorem vtxo_state_transitions_monotonic :
    (∀ s t, VtxoStep s t →
        VtxoState.rank s ≤ VtxoState.rank t ∨ confirmedRollbackEdge s t) ∧
    (∀ t, VtxoReach VtxoState.spent t → t = VtxoState.spent) ∧
    ¬ VtxoReach VtxoState.spent VtxoState.spendable := by
  have key : ∀ a t, VtxoReach a t → a = VtxoState.spent → t = VtxoState.spent := by
    intro a t h
    induction h with
    | refl => exact fun ha => ha
    | tail hr hs ih =>
        intro ha
        have ht := ih ha
        subst ht
        cases hs
  refine ⟨?_, fun t h => key _ _ h rfl, fun h => ?_⟩
  · intro s t h
    cases h <;> simp [VtxoState.rank, confirmedRollbackEdge]
  · exact absurd (key _ _ h rfl) (by decide)

/-- Witness for C2: a concrete forward step and the absorbing property at
the spent state itself. -/
theorem vtxo_state_transitions_monotonic_witness :
    (VtxoState.rank VtxoState.spendable ≤ VtxoState.rank VtxoState.spent ∨
      confirmedRollbackEdge VtxoState.spendable VtxoState.spent) ∧
    VtxoState.spent = VtxoState.spent :=
  ⟨vtxo_state_transitions_monotonic.1 VtxoState.spendable VtxoState.spent
      VtxoStep.spendDirect,
   vtxo_state_transitions_monotonic.2.1 VtxoState.spent
      (VtxoReach.refl VtxoState.spent)⟩

/-- C3: every reachable process state holds at most one loaded wallet; a
second load or create without an intervening close fails with
`StateError`; `is_wallet_loaded` answers exactly whether a wallet is
loaded; after a successful `close_wallet` the answer is false. -/
theorem single_wallet_per_process :
    (∀ loaded, ProcessReachable loaded → loaded.length ≤ 1) ∧
    (∀ d w loaded, loaded ≠ [] →
        load_wallet d w loaded = Except.error BarkErrorKind.StateError ∧
        create_wallet d w loaded = Except.error BarkErrorKind.StateError) ∧
    (∀ loaded, is_wallet_loaded loaded = true ↔ loaded ≠ []) ∧
    (∀ loaded next, close_wallet loaded = Except.ok next →
        is_wallet_loaded next = false) := by
  have hstep : ∀ (loaded : List LoadedWallet) (e : ProcessEvent),
      loaded.length ≤ 1 → (processApply loaded e).length ≤ 1 := by
    intro loaded e hlen
    cases e <;> cases loaded <;>
      simp_all [processApply, processStep, load_wallet, create_wallet, close_wallet]
  refine ⟨?_, ?_, ?_, ?_⟩
  · intro loaded h
    induction h with
    | init => simp
    | step e hr ih => exact hstep _ e ih
  · intro d w loaded hne
    cases loaded with
    | nil => exact absurd rfl hne
    | cons a l => exact ⟨rfl, rfl⟩
  · intro loaded
    cases loaded <;> simp [is_wallet_loaded]
  · intro loaded next h
    cases loaded with
    | nil => cases h
    | cons a l =>
        have : next = [] := by
          simpa [close_wallet] using h.symm
        subst this
        rfl

/-- Witness for C3 at concrete process states. -/
theorem single_wallet_per_process_witness :
    [sampleLoadedWallet].length ≤ 1 ∧
    load_wallet "/data" sampleWallet [sampleLoadedWallet] =
      Except.error BarkErrorKind.StateError ∧
    is_wallet_loaded [] = false :=
  ⟨single_wallet_per_process.1 [sampleLoadedWallet]
      (ProcessReachable.step (ProcessEvent.load "/data" sampleWallet)
        ProcessReachable.init),
   (single_wallet_per_process.2.1 "/data" sampleWallet [sampleLoadedWallet]
      (by simp)).1,
   single_wallet_per_process.2.2.2 [sampleLoadedWallet] [] rfl⟩

/-- C4: key derivation is deterministic: two binding calls of
`deriveKeypairFromMnemonic` whose double indices cast to the same
`uint32_t` return identical public and secret keys; `peakKeyPair` leaves
the wallet state untouched, and repeated `peakKeyPair` calls at a fixed
index return identical keypairs across any intervening session events. -/
theorem keypair_derivation_deterministic :
    (∀ mnemonic network i j, i % 2 ^ 32 = j % 2 ^ 32 →
        (deriveKeypairFromMnemonic mnemonic network i).public_key =
          (deriveKeypairFromMnemonic mnemonic network j).public_key ∧
        (deriveKeypairFromMnemonic mnemonic network i).secret_key =
          (deriveKeypairFromMnemonic mnemonic network j).secret_key) ∧
    (∀ s index, (peakKeyPair s index).2 = s) ∧
    (∀ s es index,
        ((peakKeyPair (applyEvents s es) index).1).public_key =
          ((peakKeyPair s index).1).public_key ∧
        ((peakKeyPair (applyEvents s es) index).1).secret_key =
          ((peakKeyPair s index).1).secret_key) := by
  refine ⟨?_, ?_, ?_⟩
  · intro mnemonic network i j h
    have heq : deriveKeypairFromMnemonic mnemonic network i =
        deriveKeypairFromMnemonic mnemonic network j := by
      unfold deriveKeypairFromMnemonic
      rw [h]
    rw [heq]
    exact ⟨rfl, rfl⟩
  · intro s index
    rfl
  · intro s es index
    have hs := applyEvents_preserves_seed es s
    simp [peakKeyPair, peak_keypair, derive_keypair_from_mnemonic, hs.1, hs.2]

/-- Witness for C4: two indices equal modulo the `uint32_t` cast, and a
concrete session of one query event. -/
theorem keypair_derivation_deterministic_witness :
    ((deriveKeypairFromMnemonic "legal winner thank" "signet" 7).public_key =
        (deriveKeypairFromMnemonic "legal winner thank" "signet" (7 + 2 ^ 32)).public_key ∧
      (deriveKeypairFromMnemonic "legal winner thank" "signet" 7).secret_key =
        (deriveKeypairFromMnemonic "legal winner thank" "signet" (7 + 2 ^ 32)).secret_key) ∧
    (peakKeyPair sampleWallet 7).2 = sampleWallet ∧
    ((peakKeyPair (applyEvents sampleWallet [CoreEvent.queryBalance]) 7).1).public_key =
      ((peakKeyPair sampleWallet 7).1).public_key :=
  ⟨keypair_derivation_deterministic.1 "legal winner thank" "signet" 7 (7 + 2 ^ 32)
      (by norm_num),
   keypair_derivation_deterministic.2.1 sampleWallet 7,
   (keypair_derivation_deterministic.2.2 sampleWallet [CoreEvent.queryBalance] 7).1⟩

/-- C5: with no in-flight exits, `exit_progress_once` returns the current
status unchanged and performs no state change, and calling it twice is
the same as calling it once. -/
theorem exitProgressOnce_idempotent_when_idle
    (s : WalletCoreState) (h : s.exits = []) :
    exit_progress_once s = (exitStatusOf s, s) ∧
    exit_progress_once (exit_progress_once s).2 = exit_progress_once s := by
  have h1 : exit_progress_once s = (exitStatusOf s, s) := by
    unfold exit_progress_once
    rw [h]
  exact ⟨h1, by rw [h1]; exact h1⟩

/-- Witness for C5 at a concrete idle wallet. -/
theorem exitProgressOnce_idempotent_when_idle_witness :
    exit_progress_once sampleWallet = (exitStatusOf sampleWallet, sampleWallet) ∧
    exit_progress_once (exit_progress_once sampleWallet).2 =
      exit_progress_once sampleWallet :=
  exitProgressOnce_idempotent_when_idle sampleWallet rfl

/-- C6: `lightningReceiveStatus` returns an absent value exactly when the
payment hash identifies no Lightning receive of the loaded wallet (the
binding maps the core null pointer to an absent optional), and for a
known hash it returns the converted record stored under that hash. -/
theorem lightningReceiveStatus_absent_iff_unknown
    (store : List LightningReceiveRust) (paymentHash : String) :
    (lightningReceiveStatus store paymentHash = none ↔
      ∀ r ∈ store, r.payment_hash ≠ paymentHash) ∧
    (∀ r, lightning_receive_status store paymentHash = some r →
        lightningReceiveStatus store paymentHash =
          some (convertLightningReceive r) ∧
        r.payment_hash = paymentHash) := by
  constructor
  · constructor
    · intro h r hr
      cases hfind : lightning_receive_status store paymentHash with
      | none =>
          have := List.find?_eq_none.mp hfind r hr
          simpa using this
      | some q =>
          rw [lightningReceiveStatus, hfind] at h
          cases h
    · intro hall
      have hfind : lightning_receive_status store paymentHash = none := by
        apply List.find?_eq_none.mpr
        intro r hr
        simpa using hall r hr
      rw [lightningReceiveStatus, hfind]
  · intro r hfind
    have hbeq := List.find?_some hfind
    refine ⟨?_, by simpa using hbeq⟩
    rw [lightningReceiveStatus, hfind]

/-- Witness for C6: a store holding one record under hash "h1". -/
theorem lightningReceiveStatus_absent_iff_unknown_witness :
    lightningReceiveStatus [sampleReceive] "h1" =
      some (convertLightningReceive sampleReceive) ∧
    sampleReceive.payment_hash = "h1" :=
  (lightningReceiveStatus_absent_iff_unknown [sampleReceive] "h1").2
    sampleReceive rfl

/-- C7 counterexample: in a wallet whose only VTXO is locked into an
in-flight Lightning send, the four categories named by the claim
(spendable, pending-in-round, pending-exit, pending-board) sum to zero
while the offchain VTXO value is five, so they do not partition the
offchain value: the result also carries a pending-lightning-send
category. -/
theorem offchainBalance_four_way_partition_fails :
    ¬ claimedFourWayPartition cexWallet := by
  unfold claimedFourWayPartition
  decide

/-- C7 (amended): `offchainBalance` is a derived aggregate recomputed from
the current VTXO set; its result partitions the offchain VTXO value into
the five categories spendable, pending-lightning-send, pending-in-round,
pending-exit and pending-board, and each category equals the summed
amounts of the wallet VTXOs in the corresponding state. -/
theorem offchainBalance_five_way_partition (s : WalletCoreState) :
    ((offchainBalance s).spendable =
        categoryValue BalanceCategory.spendable s.vtxos ∧
      (offchainBalance s).pending_lightning_send =
        categoryValue BalanceCategory.pendingLightningSend s.vtxos ∧
      (offchainBalance s).pending_in_round =
        categoryValue BalanceCategory.pendingInRound s.vtxos ∧
      (offchainBalance s).pending_exit =
        categoryValue BalanceCategory.pendingExit s.vtxos ∧
      (offchainBalance s).pending_board =
        categoryValue BalanceCategory.pendingBoard s.vtxos) ∧
    (offchainBalance s).spendable + (offchainBalance s).pending_lightning_send +
        (offchainBalance s).pending_in_round + (offchainBalance s).pending_exit +
        (offchainBalance s).pending_board =
      offchainValue s.vtxos := by
  refine ⟨⟨rfl, rfl, rfl, rfl, rfl⟩, ?_⟩
  exact fiveWayPartitionAux s.vtxos

/-- C8: the Movement ledger is append-only: every session event extends
the ledger at the end, entries already recorded are never rewritten, and
two `history` calls with no intervening balance-affecting event return
identical entries. -/
theorem movements_append_only :
    (∀ s e, ∃ tail, (applyEvent s e).movements = s.movements ++ tail) ∧
    (∀ s e i, i < s.movements.length →
        (applyEvent s e).movements[i]? = s.movements[i]?) ∧
    (∀ s es, (∀ e ∈ es, isBalanceAffecting e = false) →
        history (applyEvents s es) = history s) := by
  have happend : ∀ (s : WalletCoreState) (e : CoreEvent),
      ∃ tail, (applyEvent s e).movements = s.movements ++ tail := by
    intro s e
    cases e with
    | board m minted => exact ⟨[m], rfl⟩
    | send m spent_ids => exact ⟨[m], rfl⟩
    | receive m received => exact ⟨[m], rfl⟩
    | refreshRound m refreshed_ids fresh => exact ⟨[m], rfl⟩
    | exitTick =>
        exact ⟨[], by simp [applyEvent, (exit_progress_once_state_fields s).2.2]⟩
    | blockFound => exact ⟨[], by simp [applyEvent]⟩
    | queryHistory => exact ⟨[], by simp [applyEvent]⟩
    | queryVtxos => exact ⟨[], by simp [applyEvent]⟩
    | queryBalance => exact ⟨[], by simp [applyEvent]⟩
    | peakKey index => exact ⟨[], by simp [applyEvent, peak_keypair]⟩
  refine ⟨happend, ?_, ?_⟩
  · intro s e i hi
    obtain ⟨tail, htail⟩ := happend s e
    rw [htail]
    exact List.getElem?_append_left hi
  · intro s es
    induction es generalizing s with
    | nil => intro _; rfl
    | cons e es ih =>
        intro hall
        have he : isBalanceAffecting e = false := hall e (List.mem_cons_self e es)
        have hes : ∀ x ∈ es, isBalanceAffecting x = false :=
          fun x hx => hall x (List.mem_cons_of_mem e hx)
        have hstep : (applyEvent s e).movements = s.movements :=
          applyEvent_readonly_movements s e he
        have hrec := ih (applyEvent s e) hes
        calc history (applyEvents s (e :: es))
            = history (applyEvents (applyEvent s e) es) := rfl
          _ = history (applyEvent s e) := hrec
          _ = history s := by simp [history, hstep]

/-- Witness for C8: one read-only query between two `history` calls on a
concrete wallet, and a concrete board event extending the ledger. -/
theorem movements_append_only_witness :
    (cexWallet.movements[0]? = cexWallet.movements[0]? ∨
      cexWallet.movements.length = 0) ∧
    history (applyEvents cexWallet [CoreEvent.queryHistory, CoreEvent.queryBalance]) =
      history cexWallet :=
  ⟨Or.inl rfl,
   movements_append_only.2.2 cexWallet
     [CoreEvent.queryHistory, CoreEvent.queryBalance]
     (by intro e he; cases he with
         | head => rfl
         | tail _ h2 => cases h2 with
           | head => rfl
           | tail _ h3 => cases h3)⟩

/-- A string has length zero exactly when it is the empty string. -/
theorem string_length_zero_iff (s : String) : s.length = 0 ↔ s = "" := by
  obtain ⟨data⟩ := s
  constructor
  · intro h
    have hd : data = [] := List.length_eq_zero.mp (by simpa [String.length] using h)
    subst hd
    rfl
  · intro h
    have hd : data = [] := by
      have := congrArg String.data h
      simpa using this
    subst hd
    rfl

/-- C9: every VTXO returned by the `vtxos` or `getExpiringVtxos` bindings
carries the amount, expiry height, server pubkey, exit delta, anchor
point, point and state of a VTXO of the wallet ledger, with the state
drawn from the five listed state names. -/
theorem vtxos_fields_and_state_range (s : WalletCoreState) (threshold : Nat)
    (v : BarkVtxo)
    (hv : v ∈ vtxos s ∨ v ∈ getExpiringVtxos s threshold) :
    v.state ∈ ["spendable", "pending-in-round", "pending-exit",
      "htlc-locked", "spent"] ∧
    ∃ src ∈ s.vtxos,
      v.amount = src.amount ∧ v.expiry_height = src.expiry_height ∧
      v.server_pubkey = src.server_pubkey ∧ v.exit_delta = src.exit_delta ∧
      v.anchor_point = src.anchor_point ∧ v.point = src.point ∧
      v.state = src.state.render := by
  have hsrc : ∃ src ∈ s.vtxos,
      v = { amount := src.amount
            expiry_height := src.expiry_height
            server_pubkey := src.server_pubkey
            exit_delta := src.exit_delta
            anchor_point := src.anchor_point
            point := src.point
            state := src.state.render } := by
    cases hv with
    | inl h =>
        simp only [vtxos, get_vtxos, convertRustVtxosToVector] at h
        obtain ⟨rv, hrv, hconv⟩ := List.mem_map.mp h
        obtain ⟨src, hsrcmem, hrv2⟩ := List.mem_map.mp hrv
        subst hrv2
        exact ⟨src, hsrcmem, hconv.symm⟩
    | inr h =>
        simp only [getExpiringVtxos, get_expiring_vtxos,
          convertRustVtxosToVector] at h
        obtain ⟨rv, hrv, hconv⟩ := List.mem_map.mp h
        obtain ⟨src, hsrcmem, hrv2⟩ := List.mem_map.mp hrv
        subst hrv2
        exact ⟨src, (List.mem_filter.mp hsrcmem).1, hconv.symm⟩
  obtain ⟨src, hmem, rfl⟩ := hsrc
  refine ⟨?_, src, hmem, rfl, rfl, rfl, rfl, rfl, rfl, rfl⟩
  cases src.state <;> simp [VtxoState.render]

/-- Witness for C9 at the concrete sample wallet. -/
theorem vtxos_fields_and_state_range_witness :
    ({ amount := 1000
       expiry_height := 400
       server_pubkey := "02aa"
       exit_delta := 12
       anchor_point := "f0:0"
       point := "f0:1"
       state := "spendable" } : BarkVtxo).state ∈
      ["spendable", "pending-in-round", "pending-exit", "htlc-locked",
        "spent"] ∧
    ∃ src ∈ sampleWallet.vtxos,
      ({ amount := 1000
         expiry_height := 400
         server_pubkey := "02aa"
         exit_delta := 12
         anchor_point := "f0:0"
         point := "f0:1"
         state := "spendable" } : BarkVtxo).amount = src.amount ∧
      ({ amount := 1000
         expiry_height := 400
         server_pubkey := "02aa"
         exit_delta := 12
         anchor_point := "f0:0"
         point := "f0:1"
         state := "spendable" } : BarkVtxo).expiry_height = src.expiry_height ∧
      ({ amount := 1000
         expiry_height := 400
         server_pubkey := "02aa"
         exit_delta := 12
         anchor_point := "f0:0"
         point := "f0:1"
         state := "spendable" } : BarkVtxo).server_pubkey = src.server_pubkey ∧
      ({ amount := 1000
         expiry_height := 400
         server_pubkey := "02aa"
         exit_delta := 12
         anchor_point := "f0:0"
         point := "f0:1"
         state := "spendable" } : BarkVtxo).exit_delta = src.exit_delta ∧
      ({ amount := 1000
         expiry_height := 400
         server_pubkey := "02aa"
         exit_delta := 12
         anchor_point := "f0:0"
         point := "f0:1"
         state := "spendable" } : BarkVtxo).anchor_point = src.anchor_point ∧
      ({ amount := 1000
         expiry_height := 400
         server_pubkey := "02aa"
         exit_delta := 12
         anchor_point := "f0:0"
         point := "f0:1"
         state := "spendable" } : BarkVtxo).point = src.point ∧
      ({ amount := 1000
         expiry_height := 400
         server_pubkey := "02aa"
         exit_delta := 12
         anchor_point := "f0:0"
         point := "f0:1"
         state := "spendable" } : BarkVtxo).state = src.state.render :=
  vtxos_fields_and_state_range sampleWallet 0
    { amount := 1000
      expiry_height := 400
      server_pubkey := "02aa"
      exit_delta := 12
      anchor_point := "f0:0"
      point := "f0:1"
      state := "spendable" }
    (Or.inl (by decide))

/-- C10: at the binding interface an optional value is absent exactly when
the core representation is empty or null: the Lightning send preimage is
absent iff the core preimage string is empty, a history entry has no
completion timestamp iff the core string is empty, the first-expiring
blockheight is absent iff the core pointer is null, and
`checkLightningPayment` returns null iff the core string is empty. -/
theorem binding_absent_iff_core_empty :
    (∀ rust_result : LightningSendRust,
        ((payLightningInvoiceResult rust_result).preimage = none ↔
          rust_result.preimage = "")) ∧
    (∀ movement_rs : Movement,
        ((convertMovement movement_rs).completed_at = none ↔
          movement_rs.completed_at = "")) ∧
    (∀ result_ptr : Option Nat,
        (getFirstExpiringVtxoBlockheight result_ptr = none ↔
          result_ptr = none)) ∧
    (∀ result : String,
        (checkLightningPayment result = none ↔ result = "")) := by
  refine ⟨?_, ?_, ?_, ?_⟩
  · intro rust_result
    by_cases h : rust_result.preimage = "" <;>
      simp [payLightningInvoiceResult, h]
  · intro movement_rs
    by_cases h : movement_rs.completed_at = ""
    · simp [convertMovement, h]
    · have hlen : movement_rs.completed_at.length ≠ 0 :=
        fun hl => h ((string_length_zero_iff movement_rs.completed_at).mp hl)
      simp [convertMovement, hlen, h]
  · intro result_ptr
    cases result_ptr <;> simp [getFirstExpiringVtxoBlockheight]
  · intro result
    by_cases h : result = "" <;> simp [checkLightningPayment, h]
